import Mathlib

/-!
# bookmyroom — verification of the reservation core

Shallow embedding of the `bookmyroom` room-reservation service
(`main.go` plus its SQL schema).  Time instants (`time.Time` in Go,
`TIMESTAMPTZ` in SQL) are modelled as integers under the usual total
order; only comparisons between instants are ever performed by the
code.  Request-body plumbing (JSON decoding, RFC 3339 parsing, HTTP
routing, JWT verification) is the out-of-scope boundary: handlers are
modelled from the point where the input fields have been decoded, and
the authenticated caller is the `AuthUser` the middleware puts into the
request context.  `created_at` columns are never read by any handler
logic and are omitted.

The SQL schema (`CREATE TABLE users / rooms / bookings`) contributes
the constraints the database enforces on writes: the `CHECK` on
`bookings.status`, the `UNIQUE` on `users.email`, and the foreign keys
`bookings.room_id REFERENCES rooms(id)` and
`bookings.user_id REFERENCES users(id)`.
-/

namespace BookMyRoom

/-- `users` row (`User` struct in `main.go`; `password_hash` is the
bcrypt output, produced by the external hashing collaborator). -/
structure User where
  id : Int
  email : String
  passwordHash : String
  role : String
  deriving Repr, DecidableEq

/-- `rooms` row (`Room` struct in `main.go`). -/
structure Room where
  id : Int
  name : String
  description : String
  capacity : Int
  photoURL : String
  isActive : Bool
  deriving Repr, DecidableEq

/-- `bookings` row (`Booking` struct in `main.go`).  `status` is one of
the strings "pending", "confirmed", "cancelled" (schema `CHECK`). -/
structure Booking where
  id : Int
  roomId : Int
  userId : Int
  startTime : Int
  endTime : Int
  status : String
  deriving Repr, DecidableEq

/-- The authenticated caller extracted from the JWT by
`authMiddleware` (`AuthUser` struct in `main.go`). -/
structure AuthUser where
  id : Int
  role : String
  deriving Repr, DecidableEq

/-- The persistent database state: the three tables plus the
`BIGSERIAL` id counters. -/
structure Store where
  users : List User
  rooms : List Room
  bookings : List Booking
  nextUserId : Int
  nextBookingId : Int
  deriving Repr, DecidableEq

/-- A half-open time interval `[startTime, endTime)` (spec §4.1 /
glossary).  Named fields match the booking columns. -/
structure Interval where
  startTime : Int
  endTime : Int
  deriving Repr, DecidableEq

/-- The interval-overlap predicate as contracted in spec §4.1:
`overlaps(a, b) = a.start < b.end AND b.start < a.end`. -/
def overlaps (a b : Interval) : Bool :=
  decide (a.startTime < b.endTime) && decide (b.startTime < a.endTime)

/-- A booking's half-open interval. -/
def Booking.interval (b : Booking) : Interval :=
  ⟨b.startTime, b.endTime⟩

/-- Status is `pending` or `confirmed` — the statuses the conflict
scan's `status IN ('pending', 'confirmed')` clause selects. -/
def Booking.isActiveStatus (b : Booking) : Bool :=
  b.status == "pending" || b.status == "confirmed"

/-- The conflict scan of `handleCreateBooking` (`main.go:541-548`):
`SELECT count(*) FROM bookings WHERE room_id = $1 AND status IN
('pending', 'confirmed') AND NOT ($3 <= start_time OR $2 >= end_time)`
with `$2 = start`, `$3 = end`. -/
def conflictCount (s : Store) (roomId startT endT : Int) : Nat :=
  s.bookings.countP fun b =>
    b.roomId == roomId && b.isActiveStatus &&
      !(decide (endT ≤ b.startTime) || decide (startT ≥ b.endTime))

/-- `createBookingRequest` after JSON decode and RFC 3339 parsing of
the two timestamps. -/
structure CreateBookingRequest where
  roomId : Int
  startTime : Int
  endTime : Int
  deriving Repr, DecidableEq

/-- Outcome of `handleCreateBooking`, tagged by HTTP status:
400 `badRequest` (with the Go handler's message), 409 `conflict`,
500 `dbError`, 201 `created`. -/
inductive CreateResult where
  | badRequest (msg : String)
  | conflict
  | dbError
  | created (id : Int)
  deriving Repr, DecidableEq

/-- The `INSERT INTO bookings ... VALUES ($1,$2,$3,$4,'confirmed')
RETURNING id` of `handleCreateBooking` (`main.go:559-563`), together
with the schema constraints the database checks on that write: the
foreign keys `room_id REFERENCES rooms(id)` and `user_id REFERENCES
users(id)` (the inserted status 'confirmed' passes the status `CHECK`
trivially).  `none` is a constraint violation, surfaced by the handler
as a db error. -/
def insertBooking (s : Store) (userId roomId startT endT : Int) :
    Option (Int × Store) :=
  if s.rooms.any (fun r => r.id == roomId) &&
      s.users.any (fun u => u.id == userId) then
    some (s.nextBookingId,
      { s with
        bookings :=
          s.bookings ++ [⟨s.nextBookingId, roomId, userId, startT, endT, "confirmed"⟩],
        nextBookingId := s.nextBookingId + 1 })
  else
    none

/-- `handleCreateBooking` (`main.go:507-573`), from the point where the
request body has been decoded and both timestamps parsed.  In source
order: the `req.RoomID <= 0` check, the `!end.After(start)` check, the
conflict scan, then the insert. -/
def handleCreateBooking (s : Store) (user : AuthUser)
    (req : CreateBookingRequest) : CreateResult × Store :=
  if req.roomId ≤ 0 then
    (.badRequest "room_id, start_time, end_time required", s)
  else if ¬ (req.startTime < req.endTime) then
    (.badRequest "Окончание должно быть после начала", s)
  else if conflictCount s req.roomId req.startTime req.endTime > 0 then
    (.conflict, s)
  else
    match insertBooking s user.id req.roomId req.startTime req.endTime with
    | some (id, s') => (.created id, s')
    | none => (.dbError, s)

/-- `strings.ToLower`, modelled character-wise over the string's
characters (the handlers only ever compare the result against ASCII
literals, for which `Char.toLower` agrees with Go's case mapping). -/
def goToLower (s : String) : String :=
  ⟨s.data.map Char.toLower⟩

/-- White space as stripped by `strings.TrimSpace` (for the ASCII
range; Go also strips some Unicode space classes, which never occur in
the literals the handlers compare against). -/
def isSpaceChar (c : Char) : Bool :=
  c == ' ' || c == '\t' || c == '\n' || c == '\r' ||
    c == '\x0b' || c == '\x0c'

/-- `strings.TrimSpace`: drop white space from both ends. -/
def goTrimSpace (s : String) : String :=
  ⟨((s.data.dropWhile isSpaceChar).reverse.dropWhile isSpaceChar).reverse⟩

/-- Outcome of `handleRegister`: 400 `badRequest` (empty field, or
"Пользователь уже существует" on the unique-email violation),
201 `created` with the response body fields. -/
inductive RegisterResult where
  | badRequest (msg : String)
  | created (id : Int) (email role : String)
  deriving Repr, DecidableEq

/-- `handleRegister` (`main.go:261-299`), from the decoded request
body.  `hash` is the bcrypt digest produced by the external hashing
collaborator for the given password.  The insert is
`INSERT INTO users (email, password_hash, role) VALUES ($1, $2, 'user')
RETURNING id`; the schema's `UNIQUE` on `email` turns a duplicate into
the 400 "already exists" branch. -/
def handleRegister (s : Store) (email password hash : String) :
    RegisterResult × Store :=
  let email := goTrimSpace (goToLower email)
  if email == "" || password == "" then
    (.badRequest "Требуется указать адрес электронной почты и пароль", s)
  else if s.users.any (fun u => u.email == email) then
    (.badRequest "Пользователь уже существует", s)
  else
    (.created s.nextUserId email "user",
      { s with
        users := s.users ++ [⟨s.nextUserId, email, hash, "user"⟩],
        nextUserId := s.nextUserId + 1 })

/-- Outcome of `handleUpdateBooking` / `handleCancelBooking`:
400 `badRequest`, 404 `notFound`, 403 `forbidden`, 500 `dbError`,
200 `ok`. -/
inductive MutateResult where
  | badRequest (msg : String)
  | notFound
  | forbidden
  | dbError
  | ok
  deriving Repr, DecidableEq

/-- Result of a `QueryRow(...).Scan(...)` returning one value: a row,
`sql.ErrNoRows`, or another database error. -/
inductive SqlRow (α : Type) where
  | ok (a : α)
  | errNoRows
  | err
  deriving Repr, DecidableEq

/-- The owner lookup of `handleUpdateBooking` (`main.go:633`):
`SELECT user_id FROM bookings WHERE id = $1` with `bookingID` bound to
`$1`. -/
def updateOwnerQuery (s : Store) (bookingId : Int) : SqlRow Int :=
  match s.bookings.find? (fun b => b.id == bookingId) with
  | some b => .ok b.userId
  | none => .errNoRows

/-- The owner lookup of `handleCancelBooking` (`main.go:674`):
`QueryRow("SELECT user_id FROM bookings WHERE id = $1").Scan(&ownerID)`
— the call passes NO argument for the `$1` placeholder, so the
`database/sql` layer fails to bind the statement and `Scan` returns an
error that is not `sql.ErrNoRows`, for every store and every id. -/
def cancelOwnerQuery (_s : Store) (_bookingId : Int) : SqlRow Int :=
  .err

/-- Set a booking's status by primary key:
`UPDATE bookings SET status = $1 WHERE id = $2`. -/
def setStatus (s : Store) (bookingId : Int) (status : String) : Store :=
  { s with
    bookings := s.bookings.map fun b =>
      if b.id == bookingId then { b with status := status } else b }

/-- The strings admitted by the schema's
`CHECK (status IN ('pending', 'confirmed', 'cancelled'))`. -/
def validStatuses : List String := ["pending", "confirmed", "cancelled"]

/-- `handleUpdateBooking` (`main.go:608-658`), from the decoded
request.  `bookingId` is the parsed path parameter (`parseIDParam`
rejects ids `≤ 0` as 400).  The handler lower-cases and trims the
requested status, rejects an empty one, looks up the booking's owner,
applies the admin-or-owner gate, and then runs an unconditional
`UPDATE bookings SET status = $1 WHERE id = $2` — no lifecycle
transition check.  The schema `CHECK` rejects a status outside the
three valid strings, which the handler reports as a db error. -/
def handleUpdateBooking (s : Store) (user : AuthUser) (bookingId : Int)
    (reqStatus : String) : MutateResult × Store :=
  if bookingId ≤ 0 then
    (.badRequest "invalid booking id", s)
  else
    let status := goToLower (goTrimSpace reqStatus)
    if status == "" then
      (.badRequest "status required", s)
    else
      match updateOwnerQuery s bookingId with
      | .errNoRows => (.notFound, s)
      | .err => (.dbError, s)
      | .ok ownerId =>
        if user.role ≠ "admin" ∧ user.id ≠ ownerId then
          (.forbidden, s)
        else if validStatuses.contains status then
          (.ok, setStatus s bookingId status)
        else
          (.dbError, s)

/-- `handleCancelBooking` (`main.go:660-699`), from the decoded
request.  Structurally: parse the id, look up the owner, apply the
admin-or-owner gate, then `UPDATE bookings SET status = 'cancelled'
WHERE id = $1`.  Because `cancelOwnerQuery` always errors (its `$1` is
never bound — see its doc), control always takes the db-error branch
for a valid id; the gate and the update are dead code. -/
def handleCancelBooking (s : Store) (user : AuthUser) (bookingId : Int) :
    MutateResult × Store :=
  if bookingId ≤ 0 then
    (.badRequest "invalid booking id", s)
  else
    match cancelOwnerQuery s bookingId with
    | .errNoRows => (.notFound, s)
    | .err => (.dbError, s)
    | .ok ownerId =>
      if user.role ≠ "admin" ∧ user.id ≠ ownerId then
        (.forbidden, s)
      else
        (.ok, setStatus s bookingId "cancelled")

/-- Ascending comparison on start time, the `ORDER BY start_time` of
`handleRoomBookings`. -/
def byStartAsc (a b : Booking) : Prop := a.startTime ≤ b.startTime

/-- Descending comparison on start time, the `ORDER BY start_time DESC`
of `handleMyBookings`. -/
def byStartDesc (a b : Booking) : Prop := b.startTime ≤ a.startTime

instance : DecidableRel byStartAsc := fun a b =>
  inferInstanceAs (Decidable (a.startTime ≤ b.startTime))

instance : DecidableRel byStartDesc := fun a b =>
  inferInstanceAs (Decidable (b.startTime ≤ a.startTime))

/-- Outcome of `handleRoomBookings`: 400 on a bad id, otherwise the
row list. -/
inductive ListResult where
  | badRequest (msg : String)
  | ok (rows : List Booking)
  deriving Repr, DecidableEq

/-- `handleRoomBookings` (`main.go:472-503`): `SELECT ... FROM bookings
WHERE room_id = $1 AND status != 'cancelled' ORDER BY start_time`.
The sort is modelled by insertion sort on the ascending key. -/
def handleRoomBookings (s : Store) (roomId : Int) : ListResult :=
  if roomId ≤ 0 then
    .badRequest "ID комнаты не найдено"
  else
    .ok (List.insertionSort byStartAsc
      (s.bookings.filter fun b => b.roomId == roomId && b.status != "cancelled"))

/-- `handleMyBookings` (`main.go:575-606`): `SELECT ... FROM bookings
WHERE user_id = $1 ORDER BY start_time DESC` for the authenticated
caller. -/
def handleMyBookings (s : Store) (user : AuthUser) : List Booking :=
  List.insertionSort byStartDesc
    (s.bookings.filter fun b => b.userId == user.id)

/-!
## Interleaving model of concurrent `handleCreateBooking` calls

Each inbound request runs on its own goroutine; the only shared state
is the database.  `handleCreateBooking` touches the database twice —
once for the conflict scan (`SELECT count(*)`) and once for the insert
— and nothing (no transaction, no lock, no exclusion constraint in the
schema) joins the two accesses, so accesses of concurrent calls may
interleave between them.  A worker is a create-booking call in flight;
`stepReserve` advances a worker by one database access. -/

/-- Progress of one in-flight `handleCreateBooking` call: not yet at
the database, conflict scan done (count observed), or response
written. -/
inductive ReservePhase where
  | ready
  | scanned (cnt : Nat)
  | finished (res : CreateResult)
  deriving Repr, DecidableEq

/-- One in-flight create-booking call: its authenticated caller, its
decoded request, and how far it has progressed. -/
structure Worker where
  user : AuthUser
  req : CreateBookingRequest
  phase : ReservePhase
  deriving Repr, DecidableEq

/-- Advance a worker by one database access, mirroring
`handleCreateBooking` step by step: the in-memory validation and the
conflict scan up to the first access, then the insert (or the
conflict / error response) on the second. -/
def stepReserve (s : Store) (w : Worker) : Store × Worker :=
  match w.phase with
  | .ready =>
    if w.req.roomId ≤ 0 then
      (s, { w with phase := .finished (.badRequest "room_id, start_time, end_time required") })
    else if ¬ (w.req.startTime < w.req.endTime) then
      (s, { w with phase := .finished (.badRequest "Окончание должно быть после начала") })
    else
      let cnt := conflictCount s w.req.roomId w.req.startTime w.req.endTime
      (s, { w with phase := ReservePhase.scanned cnt })
  | .scanned cnt =>
    if cnt > 0 then
      (s, { w with phase := .finished .conflict })
    else
      match insertBooking s w.user.id w.req.roomId w.req.startTime w.req.endTime with
      | some (id, s') => (s', { w with phase := .finished (.created id) })
      | none => (s, { w with phase := .finished .dbError })
  | .finished _ => (s, w)

/-- Two create-booking calls sharing one database. -/
structure Sys where
  store : Store
  w1 : Worker
  w2 : Worker
  deriving Repr, DecidableEq

/-- Run a schedule: each entry advances worker 1 (`true`) or worker 2
(`false`) by one database access. -/
def runSched (sys : Sys) : List Bool → Sys
  | [] => sys
  | first :: rest =>
    if first then
      let (s', w1') := stepReserve sys.store sys.w1
      runSched { sys with store := s', w1 := w1' } rest
    else
      let (s', w2') := stepReserve sys.store sys.w2
      runSched { sys with store := s', w2 := w2' } rest

/-- The non-overlap invariant of spec §3 / §8: no two distinct
Pending/Confirmed bookings of one resource overlap. -/
def noOverlapInv (s : Store) : Prop :=
  ∀ b1 ∈ s.bookings, ∀ b2 ∈ s.bookings,
    b1.id ≠ b2.id → b1.roomId = b2.roomId →
    b1.isActiveStatus → b2.isActiveStatus →
    overlaps b1.interval b2.interval = false

instance (s : Store) : Decidable (noOverlapInv s) := by
  unfold noOverlapInv; infer_instance

instance : IsTotal Booking byStartAsc :=
  ⟨fun a b => Int.le_total a.startTime b.startTime⟩

instance : IsTrans Booking byStartAsc :=
  ⟨fun _ _ _ h1 h2 => le_trans h1 h2⟩

instance : IsTotal Booking byStartDesc :=
  ⟨fun a b => Int.le_total b.startTime a.startTime⟩

instance : IsTrans Booking byStartDesc :=
  ⟨fun _ _ _ h1 h2 => le_trans h2 h1⟩

/-- The scan–scan–insert–insert interleaving: both calls finish their
conflict scan before either performs its insert. -/
def raceSchedule : List Bool := [true, false, true, false]

/-! ## Concrete fixtures used by witnesses and counterexamples -/

/-- A room with id 1. -/
def demoRoom : Room := ⟨1, "Room A", "", 4, "", true⟩

/-- Registered identities with ids 1, 2, 3. -/
def demoUser1 : User := ⟨1, "a@example.com", "hash1", "user"⟩

/-- Second registered identity. -/
def demoUser2 : User := ⟨2, "b@example.com", "hash2", "user"⟩

/-- Third registered identity. -/
def demoUser3 : User := ⟨3, "c@example.com", "hash3", "user"⟩

/-- Three users, one room, no bookings yet. -/
def baseStore : Store := ⟨[demoUser1, demoUser2, demoUser3], [demoRoom], [], 4, 1⟩

/-- `baseStore` after user 2 booked room 1 on `[0, 10)` (booking id 1,
status confirmed). -/
def bookedStore : Store :=
  ⟨[demoUser1, demoUser2, demoUser3], [demoRoom], [⟨1, 1, 2, 0, 10, "confirmed"⟩], 4, 2⟩

/-- Like `bookedStore` but booking 1 is already cancelled. -/
def cancelledStore : Store :=
  ⟨[demoUser1, demoUser2, demoUser3], [demoRoom], [⟨1, 1, 2, 0, 10, "cancelled"⟩], 4, 2⟩

/-- One user, no rooms, no bookings: the create-booking target room
does not exist. -/
def noRoomStore : Store := ⟨[demoUser1], [], [], 2, 1⟩

/-! ## Helper lemmas -/

/-- The conflict scan counts a booking exactly when it is on the
requested room, is Pending/Confirmed, and overlaps the requested
interval per the §4.1 predicate: the SQL condition
`NOT (end <= start_time OR start >= end_time)` is the overlap
predicate. -/
lemma conflictCount_pos_iff (s : Store) (rid startT endT : Int) :
    0 < conflictCount s rid startT endT ↔
      ∃ b ∈ s.bookings, b.roomId = rid ∧
        (b.status = "pending" ∨ b.status = "confirmed") ∧
        overlaps ⟨startT, endT⟩ b.interval = true := by
  unfold conflictCount
  rw [List.countP_pos_iff]
  refine exists_congr fun b => and_congr_right fun _ => ?_
  simp only [Bool.and_eq_true, beq_iff_eq, Booking.isActiveStatus, Bool.or_eq_true,
    Bool.not_eq_true', Bool.or_eq_false_iff, decide_eq_true_eq, decide_eq_false_iff_not,
    overlaps, Booking.interval, not_le, ge_iff_le]
  tauto

/-- The first component of `handleCreateBooking` is `conflict` exactly
when the scan count is positive (for a well-formed request). -/
lemma createBooking_fst_conflict_iff (s : Store) (u : AuthUser)
    (req : CreateBookingRequest) (hrid : 0 < req.roomId)
    (hval : req.startTime < req.endTime) :
    (handleCreateBooking s u req).1 = .conflict ↔
      0 < conflictCount s req.roomId req.startTime req.endTime := by
  unfold handleCreateBooking
  rw [if_neg (by omega), if_neg (by omega)]
  by_cases h : conflictCount s req.roomId req.startTime req.endTime > 0
  · rw [if_pos h]
    simpa using h
  · rw [if_neg h]
    cases hins : insertBooking s u.id req.roomId req.startTime req.endTime with
    | none => simp [h]
    | some p => simp [h]

/-- Running a lone worker to completion — its two store accesses back
to back, with no interleaved access — agrees with the sequential
`handleCreateBooking`: the interleaving model refines the handler. -/
lemma solo_reserve_eq_handler (s : Store) (u : AuthUser)
    (req : CreateBookingRequest) :
    (stepReserve (stepReserve s ⟨u, req, .ready⟩).1
        (stepReserve s ⟨u, req, .ready⟩).2) =
      ((handleCreateBooking s u req).2,
        ⟨u, req, .finished (handleCreateBooking s u req).1⟩) := by
  by_cases h1 : req.roomId ≤ 0
  · simp [stepReserve, handleCreateBooking, h1]
  · by_cases h2 : req.startTime < req.endTime
    · by_cases h3 : conflictCount s req.roomId req.startTime req.endTime > 0
      · simp [stepReserve, handleCreateBooking, h1, h2, h3]
      · cases hins : insertBooking s u.id req.roomId req.startTime req.endTime with
        | none => simp [stepReserve, handleCreateBooking, h1, h2, h3, hins]
        | some p => simp [stepReserve, handleCreateBooking, h1, h2, h3, hins]
    · simp [stepReserve, handleCreateBooking, h1, h2]

/-! ## Claim theorems -/

/-- Claim C9: the overlap predicate is symmetric — for all intervals
`a` and `b`, `overlaps a b = overlaps b a`. -/
theorem overlaps_comm (a b : Interval) : overlaps a b = overlaps b a := by
  simp [overlaps, Bool.and_comm]

/-- Claim C7: a create-booking request with `end <= start` returns the
validation error and leaves the store untouched, for every store —
the theorem holds for an arbitrary `s` returned unchanged, so neither
the conflict scan nor the insert can have contributed to the
outcome. -/
theorem createBooking_rejects_invalid_interval (s : Store) (u : AuthUser)
    (req : CreateBookingRequest) (hrid : 0 < req.roomId)
    (h : req.endTime ≤ req.startTime) :
    handleCreateBooking s u req =
      (.badRequest "Окончание должно быть после начала", s) := by
  unfold handleCreateBooking
  rw [if_neg (by omega), if_pos (by omega)]

/-- Witness for C7: a concrete `[10, 5)` request against `baseStore`
is rejected with the validation error and the store is unchanged. -/
theorem createBooking_rejects_invalid_interval_witness :
    handleCreateBooking baseStore ⟨1, "user"⟩ ⟨1, 10, 5⟩ =
      (.badRequest "Окончание должно быть после начала", baseStore) :=
  createBooking_rejects_invalid_interval baseStore ⟨1, "user"⟩ ⟨1, 10, 5⟩
    (by decide) (by decide)

/-- Claim C2: create booking returns `Conflict` iff some existing
Pending/Confirmed booking on the requested room overlaps the requested
interval under the §4.1 half-open predicate; and (second conjunct) a
request starting at or after the end of every Pending/Confirmed
booking of the room — in particular `[m, e)` against a booked
`[s, m)` — is not a conflict. -/
theorem createBooking_conflict_iff (s : Store) (u : AuthUser)
    (req : CreateBookingRequest) (hrid : 0 < req.roomId)
    (hval : req.startTime < req.endTime) :
    ((handleCreateBooking s u req).1 = .conflict ↔
      ∃ b ∈ s.bookings, b.roomId = req.roomId ∧
        (b.status = "pending" ∨ b.status = "confirmed") ∧
        overlaps ⟨req.startTime, req.endTime⟩ b.interval = true) ∧
    ((∀ b ∈ s.bookings, b.roomId = req.roomId →
        (b.status = "pending" ∨ b.status = "confirmed") →
        b.endTime ≤ req.startTime) →
      (handleCreateBooking s u req).1 ≠ .conflict) := by
  have hmain := (createBooking_fst_conflict_iff s u req hrid hval).trans
    (conflictCount_pos_iff s req.roomId req.startTime req.endTime)
  refine ⟨hmain, fun hall hconf => ?_⟩
  obtain ⟨b, hb, hroom, hstat, hov⟩ := hmain.mp hconf
  have hend := hall b hb hroom hstat
  simp only [overlaps, Booking.interval, Bool.and_eq_true, decide_eq_true_eq] at hov
  omega

/-- Witness for C2: against `bookedStore` (room 1 holds confirmed
`[0, 10)`), the back-to-back request `[10, 20)` is not a conflict. -/
theorem createBooking_conflict_iff_witness :
    (handleCreateBooking bookedStore ⟨1, "user"⟩ ⟨1, 10, 20⟩).1 ≠ .conflict :=
  (createBooking_conflict_iff bookedStore ⟨1, "user"⟩ ⟨1, 10, 20⟩
    (by decide) (by decide)).2 (by decide)

/-- Claim C10: every identity persisted by the public register
operation has role "user" — any user row present after
`handleRegister` either predates the call or carries role "user",
whatever email and password were submitted. -/
theorem register_persists_role_user (s : Store) (email password hash : String)
    (u : User) (hu : u ∈ (handleRegister s email password hash).2.users) :
    u ∈ s.users ∨ u.role = "user" := by
  unfold handleRegister at hu
  dsimp only at hu
  split at hu
  · exact .inl hu
  · split at hu
    · exact .inl hu
    · simp only [List.mem_append, List.mem_singleton] at hu
      rcases hu with h | h
      · exact .inl h
      · subst h
        exact .inr rfl

/-- Witness for C10: registering `"X@y.Z "` against `baseStore`
persists the row with role "user". -/
theorem register_persists_role_user_witness :
    (⟨4, "x@y.z", "HH", "user"⟩ : User) ∈ baseStore.users ∨
      (⟨4, "x@y.z", "HH", "user"⟩ : User).role = "user" :=
  register_persists_role_user baseStore "X@y.Z " "pw" "HH"
    ⟨4, "x@y.z", "HH", "user"⟩ (by decide)

/-- Claim C8: the resource-scoped listing returns exactly (up to the
sort permutation) the bookings of the room whose status is not
"cancelled", sorted by ascending start time, while the owner-scoped
listing returns all of the caller's bookings with no status filter,
sorted by descending start time. -/
theorem listings_filter_and_order (s : Store) (u : AuthUser) (rid : Int)
    (hrid : 0 < rid) :
    (∃ rows, handleRoomBookings s rid = .ok rows ∧
      List.Perm rows
        (s.bookings.filter fun b => b.roomId == rid && b.status != "cancelled") ∧
      List.Sorted byStartAsc rows) ∧
    (List.Perm (handleMyBookings s u)
        (s.bookings.filter fun b => b.userId == u.id) ∧
      List.Sorted byStartDesc (handleMyBookings s u)) := by
  refine ⟨⟨List.insertionSort byStartAsc
      (s.bookings.filter fun b => b.roomId == rid && b.status != "cancelled"),
      ?_, ?_, ?_⟩, ?_, ?_⟩
  · unfold handleRoomBookings
    rw [if_neg (by omega)]
  · exact List.perm_insertionSort _ _
  · exact List.sorted_insertionSort _ _
  · exact List.perm_insertionSort _ _
  · exact List.sorted_insertionSort _ _

/-- Witness for C8: the two listings of `bookedStore`, for room 1 and
caller 2. -/
theorem listings_filter_and_order_witness :
    (∃ rows, handleRoomBookings bookedStore 1 = .ok rows ∧
      List.Perm rows
        (bookedStore.bookings.filter fun b => b.roomId == 1 && b.status != "cancelled") ∧
      List.Sorted byStartAsc rows) ∧
    (List.Perm (handleMyBookings bookedStore ⟨2, "user"⟩)
        (bookedStore.bookings.filter fun b => b.userId == (2 : Int)) ∧
      List.Sorted byStartDesc (handleMyBookings bookedStore ⟨2, "user"⟩)) :=
  listings_filter_and_order bookedStore ⟨2, "user"⟩ 1 (by decide)

/-- Counterexample to C3 as stated: against `noRoomStore` (no room
with id 1 exists) a well-formed create-booking request does not fail
with NotFound — `handleCreateBooking` has no NotFound outcome at all;
the insert hits the `room_id` foreign key and the handler answers
`dbError` (HTTP 500).  The store is unchanged. -/
theorem createBooking_missing_room_cex :
    handleCreateBooking noRoomStore ⟨1, "user"⟩ ⟨1, 0, 10⟩ =
      (.dbError, noRoomStore) := by
  decide

/-- Claim C3, amended: a well-formed create-booking request whose room
id matches no existing room (and, per the schema's foreign key, no
existing booking row) fails with a database error — not NotFound — and
persists nothing. -/
theorem createBooking_missing_room (s : Store) (u : AuthUser)
    (req : CreateBookingRequest) (hrid : 0 < req.roomId)
    (hval : req.startTime < req.endTime)
    (hnoroom : ∀ r ∈ s.rooms, r.id ≠ req.roomId)
    (hnobooking : ∀ b ∈ s.bookings, b.roomId ≠ req.roomId) :
    handleCreateBooking s u req = (.dbError, s) := by
  unfold handleCreateBooking
  rw [if_neg (by omega), if_neg (by omega)]
  have hcnt : conflictCount s req.roomId req.startTime req.endTime = 0 := by
    unfold conflictCount
    rw [List.countP_eq_zero]
    intro b hb
    simp [hnobooking b hb]
  rw [hcnt, if_neg (by omega)]
  have hins : insertBooking s u.id req.roomId req.startTime req.endTime = none := by
    unfold insertBooking
    rw [if_neg]
    intro hcond
    rw [Bool.and_eq_true, List.any_eq_true] at hcond
    obtain ⟨⟨r, hr, hid⟩, _⟩ := hcond
    exact hnoroom r hr (by simpa using hid)
  rw [hins]

/-- Witness for the amended C3, at the concrete `noRoomStore`. -/
theorem createBooking_missing_room_witness :
    handleCreateBooking noRoomStore ⟨1, "user"⟩ ⟨1, 20, 30⟩ =
      (.dbError, noRoomStore) :=
  createBooking_missing_room noRoomStore ⟨1, "user"⟩ ⟨1, 20, 30⟩
    (by decide) (by decide) (by decide) (by decide)

/-- Claim C4 (code bug): cancelling booking 1 of `bookedStore` — by
its owner (user 2) and by an admin alike — answers `dbError`
(HTTP 500) and cancels nothing, because the owner lookup
`SELECT user_id FROM bookings WHERE id = $1` is executed without
binding `$1` (`main.go:674`), so its error is taken for a generic
database failure.  The claimed ok/Cancelled outcome is unreachable. -/
theorem cancelBooking_always_dbError :
    handleCancelBooking bookedStore ⟨2, "user"⟩ 1 = (.dbError, bookedStore) ∧
    handleCancelBooking bookedStore ⟨9, "admin"⟩ 1 = (.dbError, bookedStore) ∧
    handleCancelBooking cancelledStore ⟨2, "user"⟩ 1 = (.dbError, cancelledStore) := by
  decide

/-- Claim C5 (code bug): booking 1 of `bookedStore` is owned by user
2.  For the stranger user 3, update-status is gated as claimed
(`forbidden`, store unchanged), but cancel answers `dbError` — not
`forbidden` — because of the unbound `$1` in the cancel handler's
owner lookup (`main.go:674`); for the same reason the owner's and an
admin's cancel also fail instead of being permitted. -/
theorem ownership_gate_divergence :
    handleUpdateBooking bookedStore ⟨3, "user"⟩ 1 "cancelled" =
      (.forbidden, bookedStore) ∧
    handleCancelBooking bookedStore ⟨3, "user"⟩ 1 = (.dbError, bookedStore) ∧
    handleCancelBooking bookedStore ⟨2, "user"⟩ 1 = (.dbError, bookedStore) ∧
    handleCancelBooking bookedStore ⟨9, "admin"⟩ 1 = (.dbError, bookedStore) := by
  decide

/-- Counterexample to C6 as stated: the owner of the already-cancelled
booking 1 of `cancelledStore` requests the transition
Cancelled → Confirmed; the claim demands it fail with InvalidTransition
and leave the status unchanged, but the handler answers ok and sets
the status to "confirmed". -/
theorem updateBooking_cancelled_to_confirmed_cex :
    handleUpdateBooking cancelledStore ⟨2, "user"⟩ 1 "confirmed" =
      (.ok, ⟨[demoUser1, demoUser2, demoUser3], [demoRoom],
        [⟨1, 1, 2, 0, 10, "confirmed"⟩], 4, 2⟩) := by
  decide

/-- Claim C6, amended: `handleUpdateBooking` performs no lifecycle
transition check.  For an existing booking and an authorized actor
(admin or owner), any requested status whose normalized form is one of
the three schema statuses is applied unconditionally — whatever the
current status, including Cancelled → Confirmed — while a normalized
status outside the three is stopped only by the schema `CHECK`, as a
database error (HTTP 500) that leaves the store unchanged; no
InvalidTransition outcome exists. -/
theorem updateBooking_no_transition_check (s : Store) (user : AuthUser)
    (bid : Int) (raw st : String) (b : Booking)
    (hbid : 0 < bid)
    (hnorm : goToLower (goTrimSpace raw) = st)
    (hfind : s.bookings.find? (fun x => x.id == bid) = some b)
    (hauth : user.role = "admin" ∨ user.id = b.userId) :
    (st ∈ validStatuses →
      handleUpdateBooking s user bid raw = (.ok, setStatus s bid st)) ∧
    (st ∉ validStatuses → st ≠ "" →
      handleUpdateBooking s user bid raw = (.dbError, s)) := by
  have howner : updateOwnerQuery s bid = .ok b.userId := by
    unfold updateOwnerQuery
    rw [hfind]
  have hgate : ¬ (user.role ≠ "admin" ∧ user.id ≠ b.userId) := by
    rintro ⟨h1, h2⟩
    rcases hauth with h | h
    exacts [h1 h, h2 h]
  constructor
  · intro hvalid
    have hcases : st = "pending" ∨ st = "confirmed" ∨ st = "cancelled" := by
      simpa [validStatuses] using hvalid
    unfold handleUpdateBooking
    rw [if_neg (by omega)]
    dsimp only
    rw [hnorm, howner]
    dsimp only
    rw [if_neg hgate]
    rcases hcases with h | h | h <;> subst h <;>
      rw [if_neg (by decide), if_pos (by decide)]
  · intro hnotin hne
    have hbeq : (st == "") = false := beq_eq_false_iff_ne.mpr hne
    unfold handleUpdateBooking
    rw [if_neg (by omega)]
    dsimp only
    rw [hnorm, howner]
    dsimp only
    rw [if_neg (by simp [hbeq]), if_neg hgate, if_neg (by simpa using hnotin)]

/-- Witness for the amended C6: the owner turns the cancelled booking
1 of `cancelledStore` back into "confirmed", and a normalized status
outside the schema's three ("archived") yields the database error with
the store unchanged. -/
theorem updateBooking_no_transition_check_witness :
    (handleUpdateBooking cancelledStore ⟨2, "user"⟩ 1 " Confirmed " =
      (.ok, setStatus cancelledStore 1 "confirmed")) ∧
    (handleUpdateBooking cancelledStore ⟨2, "user"⟩ 1 "archived" =
      (.dbError, cancelledStore)) :=
  ⟨(updateBooking_no_transition_check cancelledStore ⟨2, "user"⟩ 1
      " Confirmed " "confirmed" ⟨1, 1, 2, 0, 10, "cancelled"⟩
      (by decide) (by decide) (by decide) (by decide)).1 (by decide),
   (updateBooking_no_transition_check cancelledStore ⟨2, "user"⟩ 1
      "archived" "archived" ⟨1, 1, 2, 0, 10, "cancelled"⟩
      (by decide) (by decide) (by decide) (by decide)).2 (by decide) (by decide)⟩

/-- A worker that has not yet touched the store performs its in-memory
validation and then its conflict scan (one store read). -/
lemma stepReserve_ready (s : Store) (u : AuthUser) (r : CreateBookingRequest)
    (h1 : 0 < r.roomId) (h2 : r.startTime < r.endTime) :
    stepReserve s ⟨u, r, .ready⟩ =
      (s, ⟨u, r, .scanned (conflictCount s r.roomId r.startTime r.endTime)⟩) := by
  simp only [stepReserve]
  rw [if_neg (by omega), if_neg (by omega)]

/-- A worker whose scan observed no conflict performs its insert (one
store write), which succeeds when the room and the user exist. -/
lemma stepReserve_scanned_zero (s : Store) (u : AuthUser)
    (r : CreateBookingRequest)
    (hroom : (s.rooms.any fun x => x.id == r.roomId) = true)
    (huser : (s.users.any fun x => x.id == u.id) = true) :
    stepReserve s ⟨u, r, .scanned 0⟩ =
      ({ s with
          bookings := s.bookings ++
            [⟨s.nextBookingId, r.roomId, u.id, r.startTime, r.endTime, "confirmed"⟩],
          nextBookingId := s.nextBookingId + 1 },
        ⟨u, r, .finished (.created s.nextBookingId)⟩) := by
  simp [stepReserve, insertBooking, hroom, huser]

/-- Counterexample to C1 as stated: from `baseStore`, two concurrent
create-booking calls for the identical interval `[0, 10)` on room 1,
interleaved scan–scan–insert–insert, BOTH succeed (neither observes
Conflict), and the resulting reachable state holds two Confirmed
bookings on room 1 with overlapping intervals — the non-overlap
invariant is violated. -/
theorem reserve_race_cex :
    (runSched ⟨baseStore, ⟨⟨1, "user"⟩, ⟨1, 0, 10⟩, .ready⟩,
        ⟨⟨2, "user"⟩, ⟨1, 0, 10⟩, .ready⟩⟩ raceSchedule).w1.phase =
      .finished (.created 1) ∧
    (runSched ⟨baseStore, ⟨⟨1, "user"⟩, ⟨1, 0, 10⟩, .ready⟩,
        ⟨⟨2, "user"⟩, ⟨1, 0, 10⟩, .ready⟩⟩ raceSchedule).w2.phase =
      .finished (.created 2) ∧
    ¬ noOverlapInv (runSched ⟨baseStore, ⟨⟨1, "user"⟩, ⟨1, 0, 10⟩, .ready⟩,
        ⟨⟨2, "user"⟩, ⟨1, 0, 10⟩, .ready⟩⟩ raceSchedule).store := by
  decide

/-- Claim C1, amended: the conflict scan and the insert of
`handleCreateBooking` are two separate store accesses with nothing
(transaction, lock, or schema constraint) making them indivisible, so
for ANY store and ANY two well-formed concurrent requests on the same
existing room — each individually conflict-free against the current
bookings but overlapping each other — the scan–scan–insert–insert
interleaving lets BOTH calls succeed, reaching a state that holds two
Confirmed overlapping bookings on one resource. -/
theorem reserve_check_then_act_race (s : Store) (u1 u2 : AuthUser)
    (r1 r2 : CreateBookingRequest)
    (hroom : r2.roomId = r1.roomId)
    (hrid : 0 < r1.roomId)
    (hv1 : r1.startTime < r1.endTime) (hv2 : r2.startTime < r2.endTime)
    (hc1 : conflictCount s r1.roomId r1.startTime r1.endTime = 0)
    (hc2 : conflictCount s r2.roomId r2.startTime r2.endTime = 0)
    (hov : overlaps ⟨r1.startTime, r1.endTime⟩ ⟨r2.startTime, r2.endTime⟩ = true)
    (hroomex : (s.rooms.any fun x => x.id == r1.roomId) = true)
    (huser1 : (s.users.any fun x => x.id == u1.id) = true)
    (huser2 : (s.users.any fun x => x.id == u2.id) = true) :
    (runSched ⟨s, ⟨u1, r1, .ready⟩, ⟨u2, r2, .ready⟩⟩ raceSchedule).w1.phase =
      .finished (.created s.nextBookingId) ∧
    (runSched ⟨s, ⟨u1, r1, .ready⟩, ⟨u2, r2, .ready⟩⟩ raceSchedule).w2.phase =
      .finished (.created (s.nextBookingId + 1)) ∧
    ¬ noOverlapInv
      (runSched ⟨s, ⟨u1, r1, .ready⟩, ⟨u2, r2, .ready⟩⟩ raceSchedule).store := by
  have e1 : stepReserve s ⟨u1, r1, .ready⟩ = (s, ⟨u1, r1, .scanned 0⟩) := by
    rw [stepReserve_ready s u1 r1 (by omega) hv1, hc1]
  have e2 : stepReserve s ⟨u2, r2, .ready⟩ = (s, ⟨u2, r2, .scanned 0⟩) := by
    rw [stepReserve_ready s u2 r2 (by omega) hv2, hc2]
  have e3 : stepReserve s ⟨u1, r1, .scanned 0⟩ =
      ({ s with
          bookings := s.bookings ++
            [⟨s.nextBookingId, r1.roomId, u1.id, r1.startTime, r1.endTime, "confirmed"⟩],
          nextBookingId := s.nextBookingId + 1 },
        ⟨u1, r1, .finished (.created s.nextBookingId)⟩) :=
    stepReserve_scanned_zero s u1 r1 hroomex huser1
  have e4 : stepReserve
      { s with
        bookings := s.bookings ++
          [⟨s.nextBookingId, r1.roomId, u1.id, r1.startTime, r1.endTime, "confirmed"⟩],
        nextBookingId := s.nextBookingId + 1 } ⟨u2, r2, .scanned 0⟩ =
      ({ s with
          bookings := (s.bookings ++
            [⟨s.nextBookingId, r1.roomId, u1.id, r1.startTime, r1.endTime, "confirmed"⟩]) ++
            [⟨s.nextBookingId + 1, r2.roomId, u2.id, r2.startTime, r2.endTime, "confirmed"⟩],
          nextBookingId := s.nextBookingId + 1 + 1 },
        ⟨u2, r2, .finished (.created (s.nextBookingId + 1))⟩) := by
    exact stepReserve_scanned_zero _ u2 r2 (by simpa [hroom] using hroomex)
      (by simpa using huser2)
  have hrun : runSched ⟨s, ⟨u1, r1, .ready⟩, ⟨u2, r2, .ready⟩⟩ raceSchedule =
      ⟨{ s with
          bookings := (s.bookings ++
            [⟨s.nextBookingId, r1.roomId, u1.id, r1.startTime, r1.endTime, "confirmed"⟩]) ++
            [⟨s.nextBookingId + 1, r2.roomId, u2.id, r2.startTime, r2.endTime, "confirmed"⟩],
          nextBookingId := s.nextBookingId + 1 + 1 },
        ⟨u1, r1, .finished (.created s.nextBookingId)⟩,
        ⟨u2, r2, .finished (.created (s.nextBookingId + 1))⟩⟩ := by
    simp [raceSchedule, runSched, e1, e2, e3, e4]
  rw [hrun]
  refine ⟨rfl, rfl, fun hinv => ?_⟩
  have hov' := hinv
    ⟨s.nextBookingId, r1.roomId, u1.id, r1.startTime, r1.endTime, "confirmed"⟩
    (by simp)
    ⟨s.nextBookingId + 1, r2.roomId, u2.id, r2.startTime, r2.endTime, "confirmed"⟩
    (by simp)
    (by simp) (by simpa using hroom.symm) (by rfl) (by rfl)
  exact Bool.false_ne_true (hov'.symm.trans hov)

/-- Witness for the amended C1, at `baseStore` with the overlapping
requests `[20, 30)` and `[25, 35)` on room 1. -/
theorem reserve_check_then_act_race_witness :
    (runSched ⟨baseStore, ⟨⟨1, "user"⟩, ⟨1, 20, 30⟩, .ready⟩,
        ⟨⟨2, "user"⟩, ⟨1, 25, 35⟩, .ready⟩⟩ raceSchedule).w1.phase =
      .finished (.created baseStore.nextBookingId) ∧
    (runSched ⟨baseStore, ⟨⟨1, "user"⟩, ⟨1, 20, 30⟩, .ready⟩,
        ⟨⟨2, "user"⟩, ⟨1, 25, 35⟩, .ready⟩⟩ raceSchedule).w2.phase =
      .finished (.created (baseStore.nextBookingId + 1)) ∧
    ¬ noOverlapInv (runSched ⟨baseStore, ⟨⟨1, "user"⟩, ⟨1, 20, 30⟩, .ready⟩,
        ⟨⟨2, "user"⟩, ⟨1, 25, 35⟩, .ready⟩⟩ raceSchedule).store :=
  reserve_check_then_act_race baseStore ⟨1, "user"⟩ ⟨2, "user"⟩
    ⟨1, 20, 30⟩ ⟨1, 25, 35⟩ (by decide) (by decide) (by decide) (by decide)
    (by decide) (by decide) (by decide) (by decide) (by decide) (by decide)

end BookMyRoom
